import Mathlib

/-!
Shallow embedding of `fiftyone/core/validation.py` (validation utilities for the
FiftyOne dataset core), together with theorems settling the specification's
claims about it.

Modelling conventions:
* Python runtime types (label classes, `NoneType`, ...) are represented by
  string tags (`Ty`).
* A Python value, as far as this module inspects it, is either `None` or a
  value carrying its runtime type tag (`PyVal`).
* Every `raise ValueError(...)` site in the source becomes a constructor of
  `VError`, tagged with the data the message interpolates; `VError.cls` maps
  each site to the spec's error taxonomy (TypeError / SchemaError /
  MediaTypeError / ValueError), which classifies errors by cause.
* Fallible functions return `Except VError α`.
* External collaborators are parameters: the media-kind classifier
  (`fom.get_media_type`) is passed as a function `String → MediaType`; the
  schema registry is embedded as association lists stored on the collection;
  the first-element filepath probe (`sample_collection[:1].values("filepath")`)
  is an `Option String` where `none` stands for any probe failure (the source
  swallows every exception there and treats it as "empty").
-/

namespace FO

/-- Media kinds (`fiftyone.core.media`): `fom.IMAGE`, `fom.VIDEO`, or any other
media-type string the system supports. -/
inductive MediaType where
  | image
  | video
  | other (s : String)
deriving DecidableEq, Repr

/-- Runtime type tags for Python values and declared field types. -/
abbrev Ty := String

/-- A Python value as inspected by this module: `None`, or a value with a
runtime type tag and opaque payload. -/
inductive PyVal where
  | vnone
  | vval (ty : Ty) (data : Nat)
deriving DecidableEq, Repr

/-- Python's `type(value)`: `type(None)` is `NoneType`. -/
def PyVal.typeOf : PyVal → Ty
  | .vnone => "NoneType"
  | .vval ty _ => ty

/-- A schema field (`fiftyone.core.fields`): its own type tag, and optionally a
`document_type` attribute wrapping a nested label type (the source probes
`field.document_type` with try/except and falls back to the field itself). -/
structure Field where
  selfTy : Ty
  documentType : Option Ty
deriving DecidableEq, Repr

/-- Source's `try: label_type = field.document_type; except: label_type = field`. -/
def resolve_label_type (f : Field) : Ty :=
  match f.documentType with
  | some t => t
  | none => f.selfTy

/-- A `fiftyone.core.sample.Sample` as inspected by this module: id,
media type, filepath, a field-name → value mapping, and whether it is a
`fiftyone.core.video.FrameView`. -/
structure Sample where
  id : String
  mediaType : MediaType
  filepath : String
  fields : List (String × PyVal)
  isFrameView : Bool
deriving DecidableEq, Repr

/-- A candidate `fiftyone.core.collections.SampleCollection`:
`isSampleCollection` is the nominal `isinstance` capability; `className` is
`obj.__class__`; `isFramesDataset` is `collection._dataset._is_frames`;
`firstFilepath` is the result of probing the first element's filepath, `none`
when the probe fails for any reason; `schema` / `frameSchema` are the results
of `get_field_schema()` / `get_frame_field_schema()`. -/
structure Collection where
  className : String
  isSampleCollection : Bool
  mediaType : MediaType
  isFramesDataset : Bool
  firstFilepath : Option String
  schema : List (String × Field)
  frameSchema : List (String × Field)
deriving DecidableEq, Repr

/-- Every `raise ValueError(...)` site of the module, tagged with the data its
message interpolates. -/
inductive VError where
  /-- From `validate_collection`: object is not a `SampleCollection`. -/
  | notACollection (className : String)
  /-- sample/collection declared media type mismatch. -/
  | badMediaType (expected found : MediaType)
  /-- From `_validate_image`: classifier reports a non-image filepath. -/
  | badImageFilepath (filepath : String) (found : MediaType)
  /-- From `_validate_fields`: field name absent from the (frame) schema. -/
  | missingField (frames : Bool) (fieldName : String)
  /-- From `_validate_fields`: resolved label type not in `allowed_label_types`. -/
  | badFieldType (frames : Bool) (fieldName : String) (found : Ty)
  /-- From `_validate_fields`: `same_type` violated within a group. -/
  | sameTypeMismatch (frames : Bool) (fieldNames : List String)
  /-- From `get_field`: sample has no such field (from `KeyError`). -/
  | noSuchField (sampleId fieldName : String)
  /-- From `get_field`: field value is `None` and `allow_none` is false. -/
  | noneField (sampleId fieldName : String)
  /-- From `get_field`: runtime type of the value not in `allowed_types`. -/
  | badValueType (sampleId fieldName : String) (found : Ty)
  /-- From `get_fields`: `same_type` violated across the fetched fields. -/
  | fieldsSameTypeMismatch (sampleId : String) (fieldNames : List String)
deriving DecidableEq, Repr

/-- The spec's error taxonomy (§7), which classifies failures by cause. -/
inductive ErrClass where
  | typeError
  | schemaError
  | mediaTypeError
  | valueError
deriving DecidableEq, Repr

/-- Taxonomy member of each raise site, per the spec's §7 causes: capability /
type-set / same-type failures are `TypeError`; absent fields are `SchemaError`;
media-kind failures are `MediaTypeError`; null-value failures are
`ValueError`. -/
def VError.cls : VError → ErrClass
  | .notACollection _ => .typeError
  | .badMediaType _ _ => .mediaTypeError
  | .badImageFilepath _ _ => .mediaTypeError
  | .missingField _ _ => .schemaError
  | .badFieldType _ _ _ => .typeError
  | .sameTypeMismatch _ _ => .typeError
  | .noSuchField _ _ => .schemaError
  | .noneField _ _ => .valueError
  | .badValueType _ _ _ => .typeError
  | .fieldsSameTypeMismatch _ _ => .typeError

/-- Embeds `_validate_image(filepath)`: classify the filepath and fail unless the
classifier reports an image. `classify` embeds `fom.get_media_type`. -/
def _validate_image (classify : String → MediaType) (filepath : String) :
    Except VError Unit :=
  let actual := classify filepath
  if actual ≠ MediaType.image then
    .error (.badImageFilepath filepath actual)
  else
    .ok ()

/-- Embeds `validate_image_sample(sample)`. -/
def validate_image_sample (classify : String → MediaType) (sample : Sample) :
    Except VError Unit :=
  if sample.mediaType ≠ MediaType.image then
    .error (.badMediaType MediaType.image sample.mediaType)
  else if sample.isFrameView then
    _validate_image classify sample.filepath
  else
    .ok ()

/-- Embeds `validate_video_sample(sample)`. -/
def validate_video_sample (sample : Sample) : Except VError Unit :=
  if sample.mediaType ≠ MediaType.video then
    .error (.badMediaType MediaType.video sample.mediaType)
  else
    .ok ()

/-- Embeds `validate_collection(sample_collection)`: the `isinstance` capability
guard. -/
def validate_collection (c : Collection) : Except VError Unit :=
  if ¬c.isSampleCollection then
    .error (.notACollection c.className)
  else
    .ok ()

/-- Embeds `validate_image_collection(sample_collection)`: guard, declared-media-type
check, and — only for frames datasets — probe of the first element's filepath,
with every probe failure swallowed (`except: return  # empty`). -/
def validate_image_collection (classify : String → MediaType) (c : Collection) :
    Except VError Unit := do
  validate_collection c
  if c.mediaType ≠ MediaType.image then
    throw (.badMediaType MediaType.image c.mediaType)
  if c.isFramesDataset then
    match c.firstFilepath with
    | none => return ()
    | some fp => _validate_image classify fp

/-- Embeds `validate_video_collection(sample_collection)`. -/
def validate_video_collection (c : Collection) : Except VError Unit := do
  validate_collection c
  if c.mediaType ≠ MediaType.video then
    throw (.badMediaType MediaType.video c.mediaType)

/-- Python-dict insertion: replace in place if the key exists, else append
(insertion order preserved, as `label_types[field_name] = ...` does). -/
def upsert (l : List (String × Ty)) (k : String) (v : Ty) :
    List (String × Ty) :=
  if l.any (fun p => p.1 = k) then
    l.map (fun p => if p.1 = k then (k, v) else p)
  else
    l ++ [(k, v)]

/-- The `for field_name in field_names:` loop of `_validate_fields`,
accumulating the `label_types` dict. -/
def validate_fields_loop (schema : List (String × Field)) (allowed : List Ty)
    (frames : Bool) (acc : List (String × Ty)) :
    List String → Except VError (List (String × Ty))
  | [] => .ok acc
  | name :: rest =>
    match schema.lookup name with
    | none => .error (.missingField frames name)
    | some field =>
      let labelType := resolve_label_type field
      if labelType ∉ allowed then
        .error (.badFieldType frames name labelType)
      else
        validate_fields_loop schema allowed frames (upsert acc name labelType) rest

/-- Embeds `_validate_fields(sample_collection, field_names,
allowed_label_types, same_type, frames)`. -/
def _validate_fields (c : Collection) (fieldNames : List String)
    (allowed : List Ty) (sameType : Bool) (frames : Bool) :
    Except VError Unit := do
  let schema := if frames then c.frameSchema else c.schema
  let labelTypes ← validate_fields_loop schema allowed frames [] fieldNames
  if sameType ∧ ((labelTypes.map Prod.snd).dedup).length > 1 then
    throw (.sameTypeMismatch frames fieldNames)

/-- The frame-qualified field-name namespace, as a character sequence. -/
def framesQualifier : List Char := ['f', 'r', 'a', 'm', 'e', 's', '.']

/-- Whether a field name is frame-qualified (lies in the `frames.`
namespace). -/
def isFrameFieldName (n : String) : Bool :=
  n.data.take framesQualifier.length == framesQualifier

/-- Remove the `frames.` qualifier from a field name. -/
def stripFramesQualifier (n : String) : String :=
  ⟨n.data.drop framesQualifier.length⟩

/-- Modelled from the spec: `fiftyone.core.utils.split_frame_fields` is code of
this repository that is not under `src/`. Per the spec (§4.3 step 3 and the §8
scenario), field names are partitioned by an external naming convention:
frame-qualified names (those in the `frames.` namespace) reference the frame
schema, with the qualifier removed (the scenario looks up
`"frames.detections"` as `detections` in the frame schema); all other names
are sample-level. Order within each group is preserved. Returns
`(sample_fields, frame_fields)` as the source call site destructures it. -/
def split_frame_fields (fieldNames : List String) :
    List String × List String :=
  (fieldNames.filter (fun n => ¬isFrameFieldName n),
   (fieldNames.filter (fun n => isFrameFieldName n)).map stripFramesQualifier)

/-- The `(sample_fields, frame_fields)` grouping computed by
`validate_collection_label_fields`: split only for video collections,
otherwise all names are sample-level and the frame group is empty. -/
def field_groups (c : Collection) (fieldNames : List String) :
    List String × List String :=
  if c.mediaType = MediaType.video then
    split_frame_fields fieldNames
  else
    (fieldNames, ([] : List String))

/-- Embeds `validate_collection_label_fields(sample_collection, field_names,
allowed_label_types, same_type=False)`. The source's normalization of a single
string / non-container argument into a list happens before this logic; the
embedding receives the normalized lists. -/
def validate_collection_label_fields (c : Collection)
    (fieldNames : List String) (allowed : List Ty) (sameType : Bool) :
    Except VError Unit := do
  validate_collection c
  let sampleFields := (field_groups c fieldNames).1
  let frameFields := (field_groups c fieldNames).2
  if frameFields ≠ [] then
    _validate_fields c frameFields allowed sameType true
  if sampleFields ≠ [] then
    _validate_fields c sampleFields allowed sameType false

/-- Embeds `get_field(sample, field_name, allowed_types=None, allow_none=True)`. -/
def get_field (sample : Sample) (fieldName : String)
    (allowedTypes : Option (List Ty)) (allowNone : Bool) :
    Except VError PyVal :=
  match sample.fields.lookup fieldName with
  | none => .error (.noSuchField sample.id fieldName)
  | some value =>
    if ¬allowNone ∧ value = PyVal.vnone then
      .error (.noneField sample.id fieldName)
    else if let some ts := allowedTypes then
      if value.typeOf ∉ ts then
        .error (.badValueType sample.id fieldName value.typeOf)
      else
        .ok value
    else
      .ok value

/-- The `for field_name in field_names:` loop of `get_fields`, accumulating
`label_types` and `values`. NOTE: exactly as in the source, `values.append`
sits inside the `if same_type:` block, so with `same_type=False` no value is
ever collected. -/
def get_fields_loop (sample : Sample) (allowedTypes : Option (List Ty))
    (sameType : Bool) (allowNone : Bool)
    (labelTypes : List (String × Ty)) (values : List PyVal) :
    List String → Except VError (List (String × Ty) × List PyVal)
  | [] => .ok (labelTypes, values)
  | name :: rest => do
    let value ← get_field sample name allowedTypes allowNone
    if sameType then
      get_fields_loop sample allowedTypes sameType allowNone
        (upsert labelTypes name value.typeOf) (values ++ [value]) rest
    else
      get_fields_loop sample allowedTypes sameType allowNone
        labelTypes values rest

/-- Embeds `get_fields(sample, field_names, allowed_types=None,
same_type=False, allow_none=True)`. -/
def get_fields (sample : Sample) (fieldNames : List String)
    (allowedTypes : Option (List Ty)) (sameType : Bool) (allowNone : Bool) :
    Except VError (List PyVal) := do
  let (labelTypes, values) ←
    get_fields_loop sample allowedTypes sameType allowNone [] [] fieldNames
  if sameType ∧ ((labelTypes.map Prod.snd).dedup).length > 1 then
    throw (.fieldsSameTypeMismatch sample.id fieldNames)
  else
    return values

/-! ### Shared lemmas -/

lemma validate_collection_of_not (c : Collection)
    (h : c.isSampleCollection = false) :
    validate_collection c = .error (.notACollection c.className) := by
  simp [validate_collection, h]

lemma validate_collection_of_is (c : Collection)
    (h : c.isSampleCollection = true) :
    validate_collection c = .ok () := by
  simp [validate_collection, h]

lemma vclf_unfold (c : Collection) (fieldNames : List String)
    (allowed : List Ty) (sameType : Bool)
    (h : c.isSampleCollection = true) :
    validate_collection_label_fields c fieldNames allowed sameType =
      ((if (field_groups c fieldNames).2 ≠ [] then
          _validate_fields c (field_groups c fieldNames).2 allowed sameType true
        else .ok ()) >>= fun _ =>
        (if (field_groups c fieldNames).1 ≠ [] then
          _validate_fields c (field_groups c fieldNames).1 allowed sameType false
        else .ok ())) := by
  by_cases h2 : (field_groups c fieldNames).2 = [] <;>
  by_cases h1 : (field_groups c fieldNames).1 = [] <;>
    simp [validate_collection_label_fields, validate_collection_of_is c h,
      h2, h1, Bind.bind, Except.bind, Pure.pure, Except.pure]

lemma _validate_fields_of_loop_error (c : Collection) (names : List String)
    (allowed : List Ty) (sameType frames : Bool) (e : VError)
    (h : validate_fields_loop (if frames then c.frameSchema else c.schema)
        allowed frames [] names = .error e) :
    _validate_fields c names allowed sameType frames = .error e := by
  simp [_validate_fields, h, Bind.bind, Except.bind]

lemma _validate_fields_of_loop_ok (c : Collection) (names : List String)
    (allowed : List Ty) (sameType frames : Bool) (lts : List (String × Ty))
    (h : validate_fields_loop (if frames then c.frameSchema else c.schema)
        allowed frames [] names = .ok lts) :
    _validate_fields c names allowed sameType frames =
      if sameType ∧ ((lts.map Prod.snd).dedup).length > 1 then
        .error (.sameTypeMismatch frames names)
      else
        .ok () := by
  by_cases hc : sameType ∧ ((lts.map Prod.snd).dedup).length > 1 <;>
    simp [_validate_fields, h, hc, Bind.bind, Except.bind, Pure.pure,
      Except.pure, throw, throwThe, MonadExceptOf.throw]

lemma mem_upsert {l : List (String × Ty)} {k : String} {v : Ty}
    {p : String × Ty} (hp : p ∈ upsert l k v) : p ∈ l ∨ p = (k, v) := by
  unfold upsert at hp
  split at hp
  · rcases List.mem_map.mp hp with ⟨q, hq, heq⟩
    by_cases hq1 : q.1 = k
    · right
      rw [if_pos hq1] at heq
      exact heq.symm
    · left
      rw [if_neg hq1] at heq
      exact heq ▸ hq
  · rcases List.mem_append.mp hp with h | h
    · exact Or.inl h
    · right
      simpa using h

lemma loop_ok_of_resolvable (schema : List (String × Field))
    (allowed : List Ty) (frames : Bool) (names : List String) :
    ∀ acc : List (String × Ty),
      (∀ n ∈ names, ∃ f, schema.lookup n = some f ∧
        resolve_label_type f ∈ allowed) →
      ∃ lts, validate_fields_loop schema allowed frames acc names = .ok lts ∧
        ∀ p ∈ lts, p ∈ acc ∨
          (p.1 ∈ names ∧
            (schema.lookup p.1).map resolve_label_type = some p.2) := by
  induction names with
  | nil => exact fun acc _ => ⟨acc, rfl, fun p hp => Or.inl hp⟩
  | cons name rest ih =>
    intro acc h
    obtain ⟨f, hf, hfa⟩ := h name (List.mem_cons_self _ _)
    obtain ⟨lts, hlts, hinv⟩ := ih (upsert acc name (resolve_label_type f))
      (fun q hq => h q (List.mem_cons_of_mem _ hq))
    refine ⟨lts, ?_, ?_⟩
    · simpa [validate_fields_loop, hf, hfa] using hlts
    · intro p hp
      rcases hinv p hp with hacc | ⟨hp1, hp2⟩
      · rcases mem_upsert hacc with hl | hkv
        · exact Or.inl hl
        · refine Or.inr ⟨?_, ?_⟩
          · rw [hkv]
            exact List.mem_cons_self _ _
          · rw [hkv]
            simp [hf]
      · exact Or.inr ⟨List.mem_cons_of_mem _ hp1, hp2⟩

lemma loop_error_at_first_missing (schema : List (String × Field))
    (allowed : List Ty) (frames : Bool) (pre : List String) :
    ∀ (acc : List (String × Ty)) (n : String) (post : List String),
      (∀ m ∈ pre, ∃ f, schema.lookup m = some f ∧
        resolve_label_type f ∈ allowed) →
      schema.lookup n = none →
      validate_fields_loop schema allowed frames acc (pre ++ n :: post) =
        .error (.missingField frames n) := by
  induction pre with
  | nil =>
    intro acc n post _ hn
    simp [validate_fields_loop, hn]
  | cons m rest ih =>
    intro acc n post h hn
    obtain ⟨f, hf, hfa⟩ := h m (List.mem_cons_self _ _)
    simpa [validate_fields_loop, hf, hfa] using
      ih (upsert acc m (resolve_label_type f)) n post
        (fun q hq => h q (List.mem_cons_of_mem _ hq)) hn

lemma dedup_length_le_one {α : Type} [DecidableEq α] (l : List α)
    (h : ∀ a ∈ l, ∀ b ∈ l, a = b) : l.dedup.length ≤ 1 := by
  match hd : l.dedup with
  | [] => simp
  | [a] => simp
  | a :: b :: tl =>
    exfalso
    have ha : a ∈ l := List.mem_dedup.mp (hd ▸ List.mem_cons_self _ _)
    have hb : b ∈ l :=
      List.mem_dedup.mp (hd ▸ List.mem_cons_of_mem _ (List.mem_cons_self _ _))
    have hnd := l.nodup_dedup
    rw [hd] at hnd
    have hab : a ≠ b := by
      intro hab
      exact (List.nodup_cons.mp hnd).1 (hab ▸ List.mem_cons_self _ _)
    exact hab (h a ha b hb)

lemma group_validation_ok (c : Collection) (names : List String)
    (allowed : List Ty) (sameType frames : Bool)
    (hres : ∀ n ∈ names,
      ∃ f, ((if frames then c.frameSchema else c.schema).lookup n = some f ∧
        resolve_label_type f ∈ allowed))
    (hpair : sameType = true → ∀ m ∈ names, ∀ n ∈ names,
      ((if frames then c.frameSchema else c.schema).lookup m).map
          resolve_label_type =
        ((if frames then c.frameSchema else c.schema).lookup n).map
          resolve_label_type) :
    _validate_fields c names allowed sameType frames = .ok () := by
  obtain ⟨lts, hlts, hinv⟩ :=
    loop_ok_of_resolvable (if frames then c.frameSchema else c.schema)
      allowed frames names [] hres
  rw [_validate_fields_of_loop_ok c names allowed sameType frames lts hlts]
  cases sameType with
  | false => simp
  | true =>
    have hle : ((lts.map Prod.snd).dedup).length ≤ 1 := by
      apply dedup_length_le_one
      intro a ha b hb
      rcases List.mem_map.mp ha with ⟨p, hp, rfl⟩
      rcases List.mem_map.mp hb with ⟨q, hq, rfl⟩
      rcases hinv p hp with h0 | ⟨hp1, hp2⟩
      · simp at h0
      rcases hinv q hq with h0 | ⟨hq1, hq2⟩
      · simp at h0
      have := hpair rfl p.1 hp1 q.1 hq1
      rw [hp2, hq2] at this
      exact Option.some.inj this
    simp [Nat.not_lt.mpr hle]

/-! ### Claim theorems -/

/-- C1 (code bug): with default arguments (`same_type=False`), `get_fields`
returns an empty tuple instead of the tuple of `get_field` results, because
the `values.append(value)` statement sits inside the `if same_type:` block.
This contradicts the function's own docstring ("Returns: a tuple of field
values") and the spec's round-trip property. Evaluated at a concrete sample
with fields `a` and `b`: `get_fields` yields `[]` while the two `get_field`
calls yield the field values. -/
theorem get_fields_loses_values_without_same_type :
    get_fields ⟨"s0", MediaType.image, "a.png",
        [("a", PyVal.vval "int" 1), ("b", PyVal.vval "int" 2)], false⟩
      ["a", "b"] none false true = .ok [] ∧
    get_field ⟨"s0", MediaType.image, "a.png",
        [("a", PyVal.vval "int" 1), ("b", PyVal.vval "int" 2)], false⟩
      "a" none true = .ok (PyVal.vval "int" 1) ∧
    get_field ⟨"s0", MediaType.image, "a.png",
        [("a", PyVal.vval "int" 1), ("b", PyVal.vval "int" 2)], false⟩
      "b" none true = .ok (PyVal.vval "int" 2) :=
  ⟨rfl, rfl, rfl⟩

/-- C2: `validateCollection` fails with the taxonomy's `TypeError` (the
capability-failure member, distinct from `ValueError`) exactly on objects that
do not satisfy the sample-collection capability, and returns normally on those
that do. -/
theorem validate_collection_capability_guard (c : Collection) :
    (c.isSampleCollection = false →
      ∃ e, validate_collection c = .error e ∧ e.cls = ErrClass.typeError) ∧
    (c.isSampleCollection = true → validate_collection c = .ok ()) := by
  refine ⟨fun h => ⟨_, validate_collection_of_not c h, rfl⟩, ?_⟩
  exact validate_collection_of_is c

theorem validate_collection_capability_guard_witness :
    (∃ e, validate_collection
        ⟨"dict", false, MediaType.image, false, none, [], []⟩ = .error e ∧
      e.cls = ErrClass.typeError) ∧
    validate_collection
        ⟨"Dataset", true, MediaType.image, false, none, [], []⟩ = .ok () :=
  ⟨(validate_collection_capability_guard _).1 rfl,
   (validate_collection_capability_guard _).2 rfl⟩

/-- C3: for every sample whose media type is not IMAGE,
`validate_image_sample` fails with the taxonomy's `MediaTypeError`;
symmetrically, for every sample whose media type is not VIDEO,
`validate_video_sample` fails with `MediaTypeError`. -/
theorem media_type_sample_validators (classify : String → MediaType)
    (s t : Sample) (hs : s.mediaType ≠ MediaType.image)
    (ht : t.mediaType ≠ MediaType.video) :
    validate_image_sample classify s =
      .error (.badMediaType MediaType.image s.mediaType) ∧
    (VError.badMediaType MediaType.image s.mediaType).cls =
      ErrClass.mediaTypeError ∧
    validate_video_sample t =
      .error (.badMediaType MediaType.video t.mediaType) ∧
    (VError.badMediaType MediaType.video t.mediaType).cls =
      ErrClass.mediaTypeError := by
  refine ⟨?_, rfl, ?_, rfl⟩
  · simp [validate_image_sample, hs]
  · simp [validate_video_sample, ht]

theorem media_type_sample_validators_witness :
    validate_image_sample (fun _ => MediaType.image)
        ⟨"s1", MediaType.video, "v.mp4", [], false⟩ =
      .error (.badMediaType MediaType.image MediaType.video) ∧
    validate_video_sample ⟨"s2", MediaType.image, "i.png", [], false⟩ =
      .error (.badMediaType MediaType.video MediaType.image) := by
  have h := media_type_sample_validators (fun _ => MediaType.image)
    ⟨"s1", MediaType.video, "v.mp4", [], false⟩
    ⟨"s2", MediaType.image, "i.png", [], false⟩ (by decide) (by decide)
  exact ⟨h.1, h.2.2.1⟩

/-- C4: for every non-collection object, each validator that guards via the
collection type guard (`validate_image_collection`,
`validate_video_collection`, `validate_collection_label_fields`) produces
exactly the guard's `TypeError`, unchanged, for every classifier, field-name
list, allowed-type set and `same_type` flag — i.e. no media-type comparison,
schema lookup or element fetch influences the outcome. -/
theorem guard_runs_before_other_checks (c : Collection)
    (classify : String → MediaType) (fieldNames : List String)
    (allowed : List Ty) (sameType : Bool)
    (h : c.isSampleCollection = false) :
    validate_collection c = .error (.notACollection c.className) ∧
    (VError.notACollection c.className).cls = ErrClass.typeError ∧
    validate_image_collection classify c = validate_collection c ∧
    validate_video_collection c = validate_collection c ∧
    validate_collection_label_fields c fieldNames allowed sameType =
      validate_collection c := by
  refine ⟨validate_collection_of_not c h, rfl, ?_, ?_, ?_⟩ <;>
    simp [validate_image_collection, validate_video_collection,
      validate_collection_label_fields, validate_collection_of_not c h,
      Bind.bind, Except.bind]

theorem guard_runs_before_other_checks_witness :
    validate_image_collection (fun _ => MediaType.image)
        ⟨"list", false, MediaType.image, false, none, [], []⟩ =
      .error (.notACollection "list") ∧
    validate_video_collection
        ⟨"list", false, MediaType.image, false, none, [], []⟩ =
      .error (.notACollection "list") ∧
    validate_collection_label_fields
        ⟨"list", false, MediaType.image, false, none, [], []⟩
        ["gt"] ["Detections"] false =
      .error (.notACollection "list") := by
  have h := guard_runs_before_other_checks
    ⟨"list", false, MediaType.image, false, none, [], []⟩
    (fun _ => MediaType.image) ["gt"] ["Detections"] false rfl
  exact ⟨h.2.2.1.trans h.1, h.2.2.2.1.trans h.1, h.2.2.2.2.trans h.1⟩

/-- C5: for every image-typed frames-dataset collection whose first-filepath
probe yields nothing (the source swallows any probe failure and treats it as
"empty"), `validate_image_collection` returns successfully — for every
classifier, so the media-kind classifier is never consulted. -/
theorem image_collection_empty_frames (classify : String → MediaType)
    (c : Collection) (h1 : c.isSampleCollection = true)
    (h2 : c.mediaType = MediaType.image) (h3 : c.isFramesDataset = true)
    (h4 : c.firstFilepath = none) :
    validate_image_collection classify c = .ok () := by
  simp [validate_image_collection, validate_collection_of_is c h1, h2, h3, h4,
    Bind.bind, Except.bind, Pure.pure, Except.pure]

theorem image_collection_empty_frames_witness :
    validate_image_collection (fun _ => MediaType.video)
      ⟨"FramesView", true, MediaType.image, true, none, [], []⟩ = .ok () :=
  image_collection_empty_frames _ _ rfl rfl rfl rfl

/-- C8: on a sample whose field `x` resolves to `None`, `get_field` with
`allow_none=False` fails with the taxonomy's `ValueError`, while the identical
call with `allow_none=True` (the default) returns `None`; a field name absent
from the sample fails with `SchemaError` instead. -/
theorem get_field_none_handling (s : Sample) (x y : String)
    (hx : s.fields.lookup x = some PyVal.vnone)
    (hy : s.fields.lookup y = none) :
    get_field s x none false = .error (.noneField s.id x) ∧
    (VError.noneField s.id x).cls = ErrClass.valueError ∧
    get_field s x none true = .ok PyVal.vnone ∧
    get_field s y none true = .error (.noSuchField s.id y) ∧
    (VError.noSuchField s.id y).cls = ErrClass.schemaError := by
  refine ⟨?_, rfl, ?_, ?_, rfl⟩ <;> simp [get_field, hx, hy]

theorem get_field_none_handling_witness :
    get_field ⟨"s3", MediaType.image, "p.png", [("x", PyVal.vnone)], false⟩
        "x" none false = .error (.noneField "s3" "x") ∧
    get_field ⟨"s3", MediaType.image, "p.png", [("x", PyVal.vnone)], false⟩
        "x" none true = .ok PyVal.vnone ∧
    get_field ⟨"s3", MediaType.image, "p.png", [("x", PyVal.vnone)], false⟩
        "zz" none true = .error (.noSuchField "s3" "zz") := by
  have h := get_field_none_handling
    ⟨"s3", MediaType.image, "p.png", [("x", PyVal.vnone)], false⟩
    "x" "zz" rfl rfl
  exact ⟨h.1, h.2.2.1, h.2.2.2.1⟩

/-- C9 (implicit): when `allowed_types` is supplied and the field's value is
`None`, `get_field` fails with the taxonomy's `TypeError` even with
`allow_none=True`, whenever `NoneType` (the null value's runtime type) is not
a member of the allowed set: `allow_none` exempts `None` only from the null
check, not from the allowed-types membership check. -/
theorem get_field_null_not_exempt_from_allowed_types (s : Sample) (x : String)
    (ts : List Ty) (hx : s.fields.lookup x = some PyVal.vnone)
    (hts : PyVal.vnone.typeOf ∉ ts) :
    get_field s x (some ts) true =
      .error (.badValueType s.id x PyVal.vnone.typeOf) ∧
    (VError.badValueType s.id x PyVal.vnone.typeOf).cls =
      ErrClass.typeError := by
  refine ⟨?_, rfl⟩
  simp [get_field, hx, hts]

/-- C6: with `same_type=True` on a video-typed collection, the same-type
requirement is enforced separately per group. First part: if the frame-level
group resolves to more than one distinct type while the sample-level group
resolves to at most one, the call fails with the taxonomy's `TypeError`
referencing only the frame-field group. Second part: if each group resolves
to at most one (possibly different) type, the call succeeds. -/
theorem same_type_enforced_per_group (c : Collection)
    (fieldNames : List String) (allowed : List Ty)
    (h1 : c.isSampleCollection = true)
    (_h2 : c.mediaType = MediaType.video) :
    (∀ fts sts,
      validate_fields_loop c.frameSchema allowed true []
          (field_groups c fieldNames).2 = .ok fts →
      1 < ((fts.map Prod.snd).dedup).length →
      validate_fields_loop c.schema allowed false []
          (field_groups c fieldNames).1 = .ok sts →
      ((sts.map Prod.snd).dedup).length ≤ 1 →
      validate_collection_label_fields c fieldNames allowed true =
        .error (.sameTypeMismatch true (field_groups c fieldNames).2) ∧
      (VError.sameTypeMismatch true (field_groups c fieldNames).2).cls =
        ErrClass.typeError) ∧
    (∀ fts sts,
      validate_fields_loop c.frameSchema allowed true []
          (field_groups c fieldNames).2 = .ok fts →
      ((fts.map Prod.snd).dedup).length ≤ 1 →
      validate_fields_loop c.schema allowed false []
          (field_groups c fieldNames).1 = .ok sts →
      ((sts.map Prod.snd).dedup).length ≤ 1 →
      validate_collection_label_fields c fieldNames allowed true = .ok ()) := by
  constructor
  · intro fts sts hfl hflen hsl hslen
    refine ⟨?_, rfl⟩
    rw [vclf_unfold c fieldNames allowed true h1]
    have hvf : _validate_fields c (field_groups c fieldNames).2 allowed true
        true = .error (.sameTypeMismatch true (field_groups c fieldNames).2) := by
      rw [_validate_fields_of_loop_ok c _ allowed true true fts hfl]
      simp [hflen]
    have hne : (field_groups c fieldNames).2 ≠ [] := by
      intro h0
      rw [h0] at hfl
      have : fts = ([] : List (String × Ty)) :=
        (Except.ok.inj hfl).symm
      rw [this] at hflen
      simp at hflen
    rw [if_pos hne, hvf]
    rfl
  · intro fts sts hfl hflen hsl hslen
    rw [vclf_unfold c fieldNames allowed true h1]
    have hvf : (if (field_groups c fieldNames).2 ≠ [] then
        _validate_fields c (field_groups c fieldNames).2 allowed true true
      else .ok ()) = .ok () := by
      by_cases h0 : (field_groups c fieldNames).2 = []
      · simp [h0]
      · rw [if_pos h0, _validate_fields_of_loop_ok c _ allowed true true fts hfl]
        simp [Nat.not_lt.mpr hflen]
    have hvs : (if (field_groups c fieldNames).1 ≠ [] then
        _validate_fields c (field_groups c fieldNames).1 allowed true false
      else .ok ()) = .ok () := by
      by_cases h0 : (field_groups c fieldNames).1 = []
      · simp [h0]
      · rw [if_pos h0, _validate_fields_of_loop_ok c _ allowed true false sts hsl]
        simp [Nat.not_lt.mpr hslen]
    rw [hvf]
    simpa [Bind.bind, Except.bind] using hvs

theorem same_type_enforced_per_group_witness :
    validate_collection_label_fields
        ⟨"Dataset", true, MediaType.video, false, none,
          [("gt", ⟨"EDF", some "Classification"⟩)],
          [("d1", ⟨"EDF", some "Detections"⟩),
           ("d2", ⟨"EDF", some "Keypoints"⟩)]⟩
        ["gt", "frames.d1", "frames.d2"]
        ["Classification", "Detections", "Keypoints"] true =
      .error (.sameTypeMismatch true ["d1", "d2"]) ∧
    validate_collection_label_fields
        ⟨"Dataset", true, MediaType.video, false, none,
          [("gt", ⟨"EDF", some "Classification"⟩)],
          [("d1", ⟨"EDF", some "Detections"⟩),
           ("d2", ⟨"EDF", some "Detections"⟩)]⟩
        ["gt", "frames.d1", "frames.d2"]
        ["Classification", "Detections", "Keypoints"] true = .ok () := by
  constructor
  · exact ((same_type_enforced_per_group
      ⟨"Dataset", true, MediaType.video, false, none,
        [("gt", ⟨"EDF", some "Classification"⟩)],
        [("d1", ⟨"EDF", some "Detections"⟩),
         ("d2", ⟨"EDF", some "Keypoints"⟩)]⟩
      ["gt", "frames.d1", "frames.d2"]
      ["Classification", "Detections", "Keypoints"] rfl rfl).1
      [("d1", "Detections"), ("d2", "Keypoints")] [("gt", "Classification")]
      rfl (by decide) rfl (by decide)).1
  · exact (same_type_enforced_per_group
      ⟨"Dataset", true, MediaType.video, false, none,
        [("gt", ⟨"EDF", some "Classification"⟩)],
        [("d1", ⟨"EDF", some "Detections"⟩),
         ("d2", ⟨"EDF", some "Detections"⟩)]⟩
      ["gt", "frames.d1", "frames.d2"]
      ["Classification", "Detections", "Keypoints"] rfl rfl).2
      [("d1", "Detections"), ("d2", "Detections")] [("gt", "Classification")]
      rfl (by decide) rfl (by decide)

/-- C7: on a valid collection, if every field name of each group is present in
its relevant schema with a resolved declared type (unwrapping the
document-type wrapper when present) that is a member of `allowed`, and the
same-type condition is satisfied, `validate_collection_label_fields` returns
normally producing no value; and when a field name is absent from its schema
(first such name in the group's scan order), it fails with the taxonomy's
`SchemaError` naming exactly that field — proved for the first absent name of
the sample-level group of any collection whose frame-level group (validated
first) passes cleanly (vacuously so for non-video collections, whose frame
group is empty), and for the first absent name of the frame-level group of a
video collection. -/
theorem validate_label_fields_schema_correct (c : Collection)
    (fieldNames : List String) (allowed : List Ty) (sameType : Bool)
    (h1 : c.isSampleCollection = true) :
    ((∀ n ∈ (field_groups c fieldNames).1,
        ∃ f, c.schema.lookup n = some f ∧ resolve_label_type f ∈ allowed) →
     (∀ n ∈ (field_groups c fieldNames).2,
        ∃ f, c.frameSchema.lookup n = some f ∧
          resolve_label_type f ∈ allowed) →
     (sameType = true →
       (∀ m ∈ (field_groups c fieldNames).1,
        ∀ n ∈ (field_groups c fieldNames).1,
         (c.schema.lookup m).map resolve_label_type =
           (c.schema.lookup n).map resolve_label_type) ∧
       (∀ m ∈ (field_groups c fieldNames).2,
        ∀ n ∈ (field_groups c fieldNames).2,
         (c.frameSchema.lookup m).map resolve_label_type =
           (c.frameSchema.lookup n).map resolve_label_type)) →
     validate_collection_label_fields c fieldNames allowed sameType =
       .ok ()) ∧
    (∀ pre n post,
      (field_groups c fieldNames).1 = pre ++ n :: post →
      (∀ m ∈ pre, ∃ f, c.schema.lookup m = some f ∧
        resolve_label_type f ∈ allowed) →
      c.schema.lookup n = none →
      (∀ m ∈ (field_groups c fieldNames).2,
        ∃ f, c.frameSchema.lookup m = some f ∧
          resolve_label_type f ∈ allowed) →
      (sameType = true →
        ∀ m ∈ (field_groups c fieldNames).2,
        ∀ k ∈ (field_groups c fieldNames).2,
          (c.frameSchema.lookup m).map resolve_label_type =
            (c.frameSchema.lookup k).map resolve_label_type) →
      validate_collection_label_fields c fieldNames allowed sameType =
        .error (.missingField false n) ∧
      (VError.missingField false n).cls = ErrClass.schemaError) ∧
    (∀ pre n post,
      c.mediaType = MediaType.video →
      (field_groups c fieldNames).2 = pre ++ n :: post →
      (∀ m ∈ pre, ∃ f, c.frameSchema.lookup m = some f ∧
        resolve_label_type f ∈ allowed) →
      c.frameSchema.lookup n = none →
      validate_collection_label_fields c fieldNames allowed sameType =
        .error (.missingField true n) ∧
      (VError.missingField true n).cls = ErrClass.schemaError) := by
  refine ⟨?_, ?_, ?_⟩
  · intro hs hf hst
    rw [vclf_unfold c fieldNames allowed sameType h1]
    have hfok : (if (field_groups c fieldNames).2 ≠ [] then
        _validate_fields c (field_groups c fieldNames).2 allowed sameType true
      else .ok ()) = .ok () := by
      by_cases h0 : (field_groups c fieldNames).2 = []
      · simp [h0]
      · rw [if_pos h0]
        exact group_validation_ok c _ allowed sameType true hf
          (fun hst' => (hst hst').2)
    have hsok : (if (field_groups c fieldNames).1 ≠ [] then
        _validate_fields c (field_groups c fieldNames).1 allowed sameType false
      else .ok ()) = .ok () := by
      by_cases h0 : (field_groups c fieldNames).1 = []
      · simp [h0]
      · rw [if_pos h0]
        exact group_validation_ok c _ allowed sameType false hs
          (fun hst' => (hst hst').1)
    rw [hfok]
    simpa [Bind.bind, Except.bind] using hsok
  · intro pre n post heq hpre hn hf hstf
    refine ⟨?_, rfl⟩
    rw [vclf_unfold c fieldNames allowed sameType h1]
    have hfok : (if (field_groups c fieldNames).2 ≠ [] then
        _validate_fields c (field_groups c fieldNames).2 allowed sameType true
      else .ok ()) = .ok () := by
      by_cases h0 : (field_groups c fieldNames).2 = []
      · simp [h0]
      · rw [if_pos h0]
        exact group_validation_ok c _ allowed sameType true hf hstf
    have hne : (field_groups c fieldNames).1 ≠ [] := by
      rw [heq]
      simp
    have hvf : _validate_fields c (field_groups c fieldNames).1 allowed
        sameType false = .error (.missingField false n) := by
      apply _validate_fields_of_loop_error
      have := loop_error_at_first_missing c.schema allowed false pre [] n post
        hpre hn
      simpa [heq] using this
    rw [hfok]
    simp [hne, hvf, Bind.bind, Except.bind]
  · intro pre n post hv heq hpre hn
    refine ⟨?_, rfl⟩
    have hne2 : (field_groups c fieldNames).2 ≠ [] := by
      rw [heq]
      simp
    have hvf : _validate_fields c (field_groups c fieldNames).2 allowed
        sameType true = .error (.missingField true n) := by
      apply _validate_fields_of_loop_error
      have := loop_error_at_first_missing c.frameSchema allowed true pre [] n
        post hpre hn
      simpa [heq] using this
    rw [vclf_unfold c fieldNames allowed sameType h1, if_pos hne2, hvf]
    rfl

theorem validate_label_fields_schema_correct_witness :
    validate_collection_label_fields
        ⟨"Dataset", true, MediaType.image, false, none,
          [("gt", ⟨"EDF", some "Classification"⟩),
           ("pred", ⟨"EDF", some "Classification"⟩)], []⟩
        ["gt", "pred"] ["Classification"] true = .ok () ∧
    validate_collection_label_fields
        ⟨"Dataset", true, MediaType.image, false, none,
          [("gt", ⟨"EDF", some "Classification"⟩)], []⟩
        ["gt", "missing"] ["Classification"] false =
      .error (.missingField false "missing") ∧
    validate_collection_label_fields
        ⟨"Dataset", true, MediaType.video, false, none, [], []⟩
        ["frames.zz"] ["Classification"] false =
      .error (.missingField true "zz") ∧
    validate_collection_label_fields
        ⟨"Dataset", true, MediaType.video, false, none, [],
          [("d", ⟨"EDF", some "Detections"⟩)]⟩
        ["label", "frames.d"] ["Detections"] false =
      .error (.missingField false "label") := by
  refine ⟨?_, ?_, ?_, ?_⟩
  · apply (validate_label_fields_schema_correct
      ⟨"Dataset", true, MediaType.image, false, none,
        [("gt", ⟨"EDF", some "Classification"⟩),
         ("pred", ⟨"EDF", some "Classification"⟩)], []⟩
      ["gt", "pred"] ["Classification"] true rfl).1
    · intro n hn
      have hn0 : n ∈ (["gt", "pred"] : List String) := hn
      have hn' : n = "gt" ∨ n = "pred" := by simpa using hn0
      rcases hn' with rfl | rfl
      · exact ⟨⟨"EDF", some "Classification"⟩, rfl, by decide⟩
      · exact ⟨⟨"EDF", some "Classification"⟩, rfl, by decide⟩
    · intro n hn
      exact absurd (show n ∈ ([] : List String) from hn) (by simp)
    · intro _
      exact ⟨by decide, by decide⟩
  · exact ((validate_label_fields_schema_correct
      ⟨"Dataset", true, MediaType.image, false, none,
        [("gt", ⟨"EDF", some "Classification"⟩)], []⟩
      ["gt", "missing"] ["Classification"] false rfl).2.1
      ["gt"] "missing" [] rfl
      (by
        intro m hm
        have hm' : m = "gt" := by simpa using hm
        rw [hm']
        exact ⟨⟨"EDF", some "Classification"⟩, rfl, by decide⟩)
      rfl
      (by
        intro m hm
        exact absurd (show m ∈ ([] : List String) from hm) (by simp))
      (fun h => absurd h (by decide))).1
  · exact ((validate_label_fields_schema_correct
      ⟨"Dataset", true, MediaType.video, false, none, [], []⟩
      ["frames.zz"] ["Classification"] false rfl).2.2
      [] "zz" [] rfl rfl
      (by
        intro m hm
        exact absurd hm (by simp))
      rfl).1
  · exact ((validate_label_fields_schema_correct
      ⟨"Dataset", true, MediaType.video, false, none, [],
        [("d", ⟨"EDF", some "Detections"⟩)]⟩
      ["label", "frames.d"] ["Detections"] false rfl).2.1
      [] "label" [] rfl
      (by
        intro m hm
        exact absurd (show m ∈ ([] : List String) from hm) (by simp))
      rfl
      (by
        intro m hm
        have hm' : m = "d" := by
          simpa using (show m ∈ (["d"] : List String) from hm)
        rw [hm']
        exact ⟨⟨"EDF", some "Detections"⟩, rfl, by decide⟩)
      (fun h => absurd h (by decide))).1

/-- C10 (implicit): for a video-typed collection,
`validate_collection_label_fields` validates the frame-level field group
before the sample-level group, so any error arising from the frame-level
group is the one raised, regardless of the state of the sample-level group. -/
theorem frame_group_validated_first (c : Collection)
    (fieldNames : List String) (allowed : List Ty) (sameType : Bool)
    (e : VError) (h1 : c.isSampleCollection = true)
    (_h2 : c.mediaType = MediaType.video)
    (hf : _validate_fields c (field_groups c fieldNames).2 allowed sameType
        true = .error e) :
    validate_collection_label_fields c fieldNames allowed sameType =
      .error e := by
  rw [vclf_unfold c fieldNames allowed sameType h1]
  have hne : (field_groups c fieldNames).2 ≠ [] := by
    intro h0
    rw [h0] at hf
    have hok : _validate_fields c [] allowed sameType true = .ok () := by
      simp [_validate_fields, validate_fields_loop, Bind.bind, Except.bind,
        Pure.pure, Except.pure]
    rw [hok] at hf
    exact Except.noConfusion hf
  rw [if_pos hne, hf]
  rfl

theorem frame_group_validated_first_witness :
    validate_collection_label_fields
        ⟨"Dataset", true, MediaType.video, false, none, [], []⟩
        ["bad_sample", "frames.bad_frame"] ["Detections"] false =
      .error (.missingField true "bad_frame") :=
  frame_group_validated_first
    ⟨"Dataset", true, MediaType.video, false, none, [], []⟩
    ["bad_sample", "frames.bad_frame"] ["Detections"] false
    (.missingField true "bad_frame") rfl rfl rfl

theorem get_field_null_not_exempt_witness :
    get_field ⟨"s4", MediaType.image, "p.png", [("x", PyVal.vnone)], false⟩
        "x" (some ["Classification"]) true =
      .error (.badValueType "s4" "x" "NoneType") := by
  have h := get_field_null_not_exempt_from_allowed_types
    ⟨"s4", MediaType.image, "p.png", [("x", PyVal.vnone)], false⟩
    "x" ["Classification"] rfl (by decide)
  exact h.1

end FO
